import Mathlib

/-!
Verification of the Pelican configuration module `pelicanconf.py` of the
`bluescarni/site_source` repository.  The module is a flat sequence of
top-level constant assignments; we embed the Python values, the sequence of
assignments in source order, and a small store semantics for evaluating the
module, then settle the specification's claims about the resulting
key-value bindings.
-/

/-- A Python value as it occurs in `pelicanconf.py`: strings, integers,
booleans, `None`, tuples and lists. -/
inductive PyVal where
  | pyStr (s : String)
  | pyInt (n : Int)
  | pyBool (b : Bool)
  | pyNone
  | pyTuple (xs : List PyVal)
  | pyList (xs : List PyVal)

open PyVal

/-- A top-level statement of the configuration module.  Every statement of
`pelicanconf.py` is a constant assignment `NAME = value`; there is no other
statement form (no control flow). -/
inductive Stmt where
  | assign (k : String) (v : PyVal)

/-- The key bound by an assignment statement. -/
def Stmt.key : Stmt → String
  | Stmt.assign k _ => k

/-- The statements of `pelicanconf.py`, in source order (comment lines and
the `from __future__ import` line bind no configuration key and are
omitted; commented-out assignments such as `#PROFILE_IMG_URL`, `#LINKS`,
the commented second `#SOCIAL` and `#RELATIVE_URLS` are not statements). -/
def pelicanStmts : List Stmt := [
  Stmt.assign "AUTHOR" (pyStr "Francesco Biscani"),
  Stmt.assign "SITENAME" (pyStr "Zig Zag Wanderer"),
  Stmt.assign "SITEURL" (pyStr ""),
  Stmt.assign "PATH" (pyStr "content"),
  Stmt.assign "TIMEZONE" (pyStr "Europe/Berlin"),
  Stmt.assign "DEFAULT_LANG" (pyStr "en"),
  Stmt.assign "FEED_ALL_ATOM" pyNone,
  Stmt.assign "CATEGORY_FEED_ATOM" pyNone,
  Stmt.assign "TRANSLATION_FEED_ATOM" pyNone,
  Stmt.assign "AUTHOR_FEED_ATOM" pyNone,
  Stmt.assign "AUTHOR_FEED_RSS" pyNone,
  Stmt.assign "THEME" (pyStr "./pure-theme"),
  Stmt.assign "TAGLINE" (pyStr "Stuff of various degrees of importance"),
  Stmt.assign "SOCIAL" (pyTuple [
    pyTuple [pyStr "github", pyStr "https://github.com/bluescarni/"]]),
  Stmt.assign "DEFAULT_PAGINATION" (pyInt 10),
  Stmt.assign "DEFAULT_DATE" (pyStr "fs"),
  Stmt.assign "DISPLAY_PAGES_ON_MENU" (pyBool true),
  Stmt.assign "COVER_IMG_URL" (pyStr
    "https://raw.githubusercontent.com/bluescarni/site_source/master/side_pic.jpg"),
  Stmt.assign "MENUITEMS" (pyList [
    pyTuple [pyStr "About", pyStr "pages/about-me.html"],
    pyTuple [pyStr "Research", pyStr "pages/research.html"],
    pyTuple [pyStr "Software", pyStr "pages/software.html"]]),
  Stmt.assign "PLUGINS" (pyList [pyStr "render_math"])]

/-- The module's namespace: an association list from key names to values. -/
abbrev Store := List (String × PyVal)

/-- Executing one assignment: any earlier binding of the key is replaced
(Python rebinds the name), and the binding is appended. -/
def setKey (st : Store) (k : String) (v : PyVal) : Store :=
  st.filter (fun p => p.1 != k) ++ [(k, v)]

/-- Executable evaluation of a statement list over a store. -/
def runStmts : List Stmt → Store → Store
  | [], st => st
  | Stmt.assign k v :: rest, st => runStmts rest (setKey st k v)

/-- The bindings produced by evaluating `pelicanconf.py` in an empty
namespace. -/
def pelicanconf : Store := runStmts pelicanStmts []

/-- Relational semantics of executing the statement list, mirroring
`runStmts` step by step. -/
inductive Exec : List Stmt → Store → Store → Prop where
  | done (st : Store) : Exec [] st st
  | step (k : String) (v : PyVal) (rest : List Stmt) (st st2 : Store) :
      Exec rest (setKey st k v) st2 → Exec (Stmt.assign k v :: rest) st st2

/-- Does a character list start with the given pattern? -/
def listStartsWith : List Char → List Char → Bool
  | _, [] => true
  | [], _ :: _ => false
  | c :: cs, d :: ds => c == d && listStartsWith cs ds

/-- Does a character list contain the given pattern as a contiguous
infix? -/
def listHasInfix : List Char → List Char → Bool
  | [], pat => listStartsWith [] pat
  | c :: cs, pat => listStartsWith (c :: cs) pat || listHasInfix cs pat

/-- Does a key name contain the substring `FEED`?  The feed-toggle keys of
the configuration are exactly the keys whose name contains `FEED`. -/
def containsFEED (s : String) : Bool :=
  listHasInfix s.toList "FEED".toList

/-- The feed-toggle bindings of the configuration: the bindings whose key
name contains `FEED`. -/
def feedEntries : Store :=
  pelicanconf.filter (fun kv => containsFEED kv.1)

/-- Is the value the Python `None`? -/
def isNoneVal : PyVal → Bool
  | pyNone => true
  | _ => false

/-- Is the value a Python string? -/
def isStrVal : PyVal → Bool
  | pyStr _ => true
  | _ => false

/-- Is the value a Python integer? -/
def isIntVal : PyVal → Bool
  | pyInt _ => true
  | _ => false

/-- Is the value a Python boolean or `None`? -/
def isBoolOrNoneVal : PyVal → Bool
  | pyBool _ => true
  | pyNone => true
  | _ => false

/-- Is the value a Python pair (a 2-tuple)? -/
def isPairVal : PyVal → Bool
  | pyTuple [_, _] => true
  | _ => false

/-- Is the value an ordered sequence (list or tuple) of pairs? -/
def isPairSeqVal : PyVal → Bool
  | pyList xs => xs.all isPairVal
  | pyTuple xs => xs.all isPairVal
  | _ => false

/-- Is the value an ordered sequence (list or tuple) of strings? -/
def isStrSeqVal : PyVal → Bool
  | pyList xs => xs.all isStrVal
  | pyTuple xs => xs.all isStrVal
  | _ => false

/-- Modelled from the spec's type vocabulary: a configuration value of one
of the expected types "string, boolean/None, integer, or ordered pair
list". -/
def expectedTypeVal (v : PyVal) : Bool :=
  isStrVal v || isBoolOrNoneVal v || isIntVal v || isPairSeqVal v

/-- Split a character list at the first occurrence of the URL scheme
separator `://`, returning the parts before and after it, or `none` when
the separator does not occur. -/
def splitSchemeSep : List Char → Option (List Char × List Char)
  | [] => none
  | c :: cs =>
      if listStartsWith (c :: cs) [':', '/', '/'] then some ([], cs.drop 2)
      else
        match splitSchemeSep cs with
        | some (pre, post) => some (c :: pre, post)
        | none => none

/-- Modelled from the spec's words: a well-formed URL string, i.e. a
nonempty alphabetic scheme, the separator `://`, and a nonempty
remainder. -/
def isWellFormedURL (s : String) : Bool :=
  match splitSchemeSep s.toList with
  | some (scheme, rest) =>
      !scheme.isEmpty && scheme.all Char.isAlpha && !rest.isEmpty
  | none => false

/-- Modelled from the spec's words: a relative path string, one that does
not start with `/` and carries no URL scheme (no `://`). -/
def isRelativePath (s : String) : Bool :=
  !(listStartsWith s.toList ['/']) &&
    !(listHasInfix s.toList [':', '/', '/'])

/-- A well-formed menu entry: a Python pair of two strings whose second
component is a relative path. -/
def isMenuEntry : PyVal → Bool
  | pyTuple [pyStr _, pyStr p] => isRelativePath p
  | _ => false

/-- A well-formed social entry: a Python pair of two strings. -/
def isSocialEntry : PyVal → Bool
  | pyTuple [pyStr _, pyStr _] => true
  | _ => false

/-- A social entry whose URL component is well-formed. -/
def socialEntryURLOk : PyVal → Bool
  | pyTuple [pyStr _, pyStr u] => isWellFormedURL u
  | _ => false

/-- An ordered sequence (list or tuple) all of whose elements satisfy the
given check. -/
def isSeqOf (p : PyVal → Bool) : PyVal → Bool
  | pyList xs => xs.all p
  | pyTuple xs => xs.all p
  | _ => false

/-- The key names of the spec's data-model section: site metadata, feed
toggles, theme reference, social links, menu items, pagination count and
plugin list. -/
def specDataModelKeys : List String :=
  ["AUTHOR", "SITENAME", "SITEURL", "TAGLINE", "TIMEZONE", "DEFAULT_LANG",
   "COVER_IMG_URL", "FEED_ALL_ATOM", "CATEGORY_FEED_ATOM",
   "TRANSLATION_FEED_ATOM", "AUTHOR_FEED_ATOM", "AUTHOR_FEED_RSS",
   "THEME", "SOCIAL", "MENUITEMS", "DEFAULT_PAGINATION", "PLUGINS"]

/-- Executing a statement list from a given store reaches the store the
executable evaluator computes. -/
theorem exec_runStmts (stmts : List Stmt) (st : Store) :
    Exec stmts st (runStmts stmts st) := by
  induction stmts generalizing st with
  | nil => exact Exec.done st
  | cons s rest ih =>
      cases s with
      | assign k v => exact Exec.step k v rest st _ (ih (setKey st k v))

/-- The relational semantics is deterministic: from one store, executing a
statement list reaches at most one final store. -/
theorem exec_deterministic (stmts : List Stmt) (st st1 st2 : Store)
    (h1 : Exec stmts st st1) (h2 : Exec stmts st st2) : st1 = st2 := by
  induction stmts generalizing st with
  | nil =>
      cases h1
      cases h2
      rfl
  | cons s rest ih =>
      cases s with
      | assign k v =>
          cases h1 with
          | step _ _ _ _ _ h1r =>
              cases h2 with
              | step _ _ _ _ _ h2r => exact ih (setKey st k v) h1r h2r

/-- Is the value a string holding a well-formed URL? -/
def isURLStrVal : PyVal → Bool
  | pyStr s => isWellFormedURL s
  | _ => false

/-- Modelled from the spec's type vocabulary, extended: a configuration
value that is a string, a boolean or `None`, an integer, an ordered pair
list, or an ordered list of strings. -/
def expectedTypeExtVal (v : PyVal) : Bool :=
  expectedTypeVal v || isSeqOf isStrVal v

/-- Claim C1 as stated is false: the configuration does not define exactly
four feed-toggle keys; the bindings whose key name contains `FEED` number
five, not four. -/
theorem c1_counterexample :
    ¬ (feedEntries.length = 4 ∧
        feedEntries.all (fun kv => isNoneVal kv.2) = true) := by
  decide

/-- Claim C1, amended: the configuration defines exactly five feed-toggle
keys (`FEED_ALL_ATOM`, `CATEGORY_FEED_ATOM`, `TRANSLATION_FEED_ATOM`,
`AUTHOR_FEED_ATOM`, `AUTHOR_FEED_RSS`), and every key whose name contains
`FEED` is bound to `None`, i.e. disabled. -/
theorem c1_feed_toggles :
    feedEntries.length = 5 ∧
      feedEntries.all (fun kv => isNoneVal kv.2) = true := by
  decide

/-- Claim C2 as stated is false: the key `PLUGINS` is bound in
`pelicanconf.py`, the first (and only) configuration file, so the plugin
list does not appear outside it. -/
theorem c2_counterexample :
    ¬ ("PLUGINS" ∉ pelicanconf.map Prod.fst) := by
  decide

/-- Claim C2, amended: the plugin list is a sequence of plugin-name
strings, and it is bound in `pelicanconf.py` itself, the only
configuration file present in the repository. -/
theorem c2_plugins :
    pelicanconf.lookup "PLUGINS" = some (pyList [pyStr "render_math"]) ∧
      isSeqOf isStrVal (pyList [pyStr "render_math"]) = true :=
  ⟨rfl, rfl⟩

/-- Claim C3 as stated is false: `SITEURL` is bound to the empty string,
which is not a well-formed URL. -/
theorem c3_counterexample :
    ¬ ((pelicanconf.lookup "SITEURL").all isURLStrVal = true) := by
  decide

/-- Claim C3, amended: `COVER_IMG_URL` and the URL component of every
`SOCIAL` entry are well-formed URL strings, while `SITEURL` is bound to
the empty string, which is not a well-formed URL. -/
theorem c3_urls :
    pelicanconf.lookup "SITEURL" = some (pyStr "") ∧
      isWellFormedURL "" = false ∧
      (pelicanconf.lookup "COVER_IMG_URL").all isURLStrVal = true ∧
      (pelicanconf.lookup "SOCIAL").all (isSeqOf socialEntryURLOk) = true :=
  ⟨rfl, rfl, rfl, rfl⟩

/-- Claim C4 as stated is false: the binding of `PLUGINS` is a list of
strings, which is none of the expected types string, boolean/None,
integer, or ordered pair list. -/
theorem c4_counterexample :
    ¬ (pelicanconf.all (fun kv => expectedTypeVal kv.2) = true) := by
  decide

/-- Claim C4, amended: every top-level configuration value is a string, a
boolean or `None`, an integer, an ordered list of pairs, or an ordered
list of strings (the plugin list). -/
theorem c4_value_types :
    pelicanconf.all (fun kv => expectedTypeExtVal kv.2) = true := by
  decide

/-- Claim C5: `MENUITEMS` is an ordered sequence in which every element is
a pair of two strings whose second component is a relative path (it does
not start with `/` and carries no URL scheme). -/
theorem c5_menuitems :
    pelicanconf.lookup "MENUITEMS" = some (pyList [
        pyTuple [pyStr "About", pyStr "pages/about-me.html"],
        pyTuple [pyStr "Research", pyStr "pages/research.html"],
        pyTuple [pyStr "Software", pyStr "pages/software.html"]]) ∧
      (pelicanconf.lookup "MENUITEMS").all (isSeqOf isMenuEntry) = true :=
  ⟨rfl, rfl⟩

/-- Claim C6: `SOCIAL` is an ordered sequence in which every element is a
pair of two strings, a platform name and a URL. -/
theorem c6_social :
    pelicanconf.lookup "SOCIAL" = some (pyTuple [
        pyTuple [pyStr "github", pyStr "https://github.com/bluescarni/"]]) ∧
      (pelicanconf.lookup "SOCIAL").all (isSeqOf isSocialEntry) = true :=
  ⟨rfl, rfl⟩

/-- Claim C7: the pagination count `DEFAULT_PAGINATION` is bound to an
integer value, namely `10`. -/
theorem c7_default_pagination :
    pelicanconf.lookup "DEFAULT_PAGINATION" = some (pyInt 10) ∧
      (pelicanconf.lookup "DEFAULT_PAGINATION").all isIntVal = true :=
  ⟨rfl, rfl⟩

/-- Claim C8: the theme reference `THEME` is bound to a filesystem path
string, namely `./pure-theme`. -/
theorem c8_theme :
    pelicanconf.lookup "THEME" = some (pyStr "./pure-theme") ∧
      (pelicanconf.lookup "THEME").all isStrVal = true :=
  ⟨rfl, rfl⟩

/-- Claim C9: the configuration module is a sequence of constant top-level
assignments, and its evaluation is deterministic: any two executions of
the statement list from the empty namespace produce exactly the same
key-value bindings. -/
theorem c9_deterministic (st1 st2 : Store)
    (h1 : Exec pelicanStmts [] st1) (h2 : Exec pelicanStmts [] st2) :
    st1 = st2 :=
  exec_deterministic pelicanStmts [] st1 st2 h1 h2

/-- Witness for claim C9 at the concrete evaluation of the module: both
executions reach the bindings `pelicanconf`. -/
theorem c9_deterministic_witness : pelicanconf = pelicanconf :=
  c9_deterministic pelicanconf pelicanconf
    (exec_runStmts pelicanStmts []) (exec_runStmts pelicanStmts [])

/-- Claim C10: every top-level configuration key is assigned exactly once
(the statement list binds no key twice), and the file binds the keys
`PATH`, `DEFAULT_DATE` and `DISPLAY_PAGES_ON_MENU`, none of which the
spec's data model lists. -/
theorem c10_keys :
    (pelicanStmts.map Stmt.key).Nodup ∧
      "PATH" ∈ pelicanconf.map Prod.fst ∧
      "DEFAULT_DATE" ∈ pelicanconf.map Prod.fst ∧
      "DISPLAY_PAGES_ON_MENU" ∈ pelicanconf.map Prod.fst ∧
      "PATH" ∉ specDataModelKeys ∧
      "DEFAULT_DATE" ∉ specDataModelKeys ∧
      "DISPLAY_PAGES_ON_MENU" ∉ specDataModelKeys := by
  decide
